import Mathlib

/-!
Shallow embedding of the gmail-node-client core (config loading, OAuth2
token exchange, message list/get) and proofs about it.

Sources embedded:
- src/src/gmail/config.ts (`GmailConfig`, `loadGmailConfig`)
- src/src/gmail/client.ts (`fetchAccessToken`, `listMessages`, `getMessage`
  with the `format=full` request and no payload validation)
- src/unnamed/part_004 (the other version of the client, whose `getMessage`
  requests `format=raw` and rejects a payload without a message id)

The network boundary is modelled by passing each function the HTTP response
it would have received; the query parameters a function attaches to its
request URL are modelled as an association list in insertion order.
Fallible TypeScript functions (`throw`) become `Except String` results,
and a JavaScript value of type `string | undefined` becomes `Option String`.
-/

namespace Gmail

/-- Truthiness of a JavaScript `string | undefined` value: `undefined` and
the empty string are falsy, every other string is truthy.  Used for the
source's bare `if (x)` / `!x` tests on optional string fields. -/
def jsTruthy : Option String → Bool
  | none => false
  | some s => s != ""

/-- Configuration bundle, from `GmailConfig` in src/src/gmail/config.ts. -/
structure GmailConfig where
  clientId : String
  clientSecret : String
  refreshToken : String
  userEmail : String
  intakeLabel : Option String
  processedLabel : Option String
  query : Option String
deriving Repr, DecidableEq

/-- The process environment variables read by `loadGmailConfig`; a variable
that is not set is `none`. -/
structure ProcessEnv where
  GOOGLE_CLIENT_ID : Option String
  GOOGLE_CLIENT_SECRET : Option String
  GOOGLE_REFRESH_TOKEN : Option String
  GMAIL_USER_EMAIL : Option String
  GMAIL_LABEL_INTAKE : Option String
  GMAIL_LABEL_PROCESSED : Option String
  GMAIL_QUERY : Option String
deriving Repr, DecidableEq

/-- JavaScript `String.prototype.trim`: the string with leading and
trailing whitespace removed (written out structurally so that it can be
evaluated on concrete inputs). -/
def jsTrim (s : String) : String :=
  String.mk
    (((s.data.dropWhile Char.isWhitespace).reverse.dropWhile
        Char.isWhitespace).reverse)

/-- The filter condition of `loadGmailConfig`:
`!v.value || v.value.trim() === ''` — a variable is treated as missing when
it is unset, the empty string, or only whitespace. -/
def isBlank : Option String → Bool
  | none => true
  | some s => s == "" || jsTrim s == ""

/-- The `requiredVars` array of `loadGmailConfig` (name, value) pairs. -/
def requiredVars (env : ProcessEnv) : List (String × Option String) :=
  [("GOOGLE_CLIENT_ID", env.GOOGLE_CLIENT_ID),
   ("GOOGLE_CLIENT_SECRET", env.GOOGLE_CLIENT_SECRET),
   ("GOOGLE_REFRESH_TOKEN", env.GOOGLE_REFRESH_TOKEN),
   ("GMAIL_USER_EMAIL", env.GMAIL_USER_EMAIL)]

/-- The `missing` list computed by `loadGmailConfig`: the names of the
required variables whose values are blank, in declaration order. -/
def missingVars (env : ProcessEnv) : List String :=
  ((requiredVars env).filter (fun v => isBlank v.2)).map (fun v => v.1)

/-- The four required environment variable names, in declaration order. -/
def requiredNames : List String :=
  ["GOOGLE_CLIENT_ID", "GOOGLE_CLIENT_SECRET", "GOOGLE_REFRESH_TOKEN",
   "GMAIL_USER_EMAIL"]

/-- `loadGmailConfig` from src/src/gmail/config.ts (also src/unnamed/part_005):
throws (here: returns `Except.error`) an error listing every missing
required variable, otherwise returns the configuration assembled from the
environment values verbatim. -/
def loadGmailConfig (env : ProcessEnv) : Except String GmailConfig :=
  let missing := missingVars env
  if missing.length > 0 then
    Except.error
      ("Missing required environment variables: " ++ String.intercalate ", " missing)
  else
    Except.ok
      { clientId := env.GOOGLE_CLIENT_ID.getD ""
        clientSecret := env.GOOGLE_CLIENT_SECRET.getD ""
        refreshToken := env.GOOGLE_REFRESH_TOKEN.getD ""
        userEmail := env.GMAIL_USER_EMAIL.getD ""
        intakeLabel := env.GMAIL_LABEL_INTAKE
        processedLabel := env.GMAIL_LABEL_PROCESSED
        query := env.GMAIL_QUERY }

/-- An HTTP response as the client observes it through `fetch`: the `ok`
flag, numeric status, status text, the body as text (`response.text()`),
and the body parsed as JSON (`response.json()`), typed per endpoint. -/
structure HttpResponse (α : Type) where
  ok : Bool
  status : Nat
  statusText : String
  text : String
  json : α
deriving Repr

/-- The token endpoint's parsed JSON body as typed in `fetchAccessToken`:
`{ access_token?: string; error?: string }`. -/
structure TokenResponseData where
  access_token : Option String
  error : Option String
deriving Repr, DecidableEq

/-- `JSON.stringify` of a `TokenResponseData` value: fields holding
`undefined` are omitted, the rest appear in declaration order. -/
def stringifyTokenData (d : TokenResponseData) : String :=
  let fields :=
    (match d.access_token with
     | some t => ["\"access_token\":\"" ++ t ++ "\""]
     | none => []) ++
    (match d.error with
     | some e => ["\"error\":\"" ++ e ++ "\""]
     | none => [])
  "\x7b" ++ String.intercalate "," fields ++ "\x7d"

/-- The form-encoded parameters `fetchAccessToken` sends in its POST body,
built with `URLSearchParams` from the configuration. -/
def tokenRequestParams (cfg : GmailConfig) : List (String × String) :=
  [("client_id", cfg.clientId),
   ("client_secret", cfg.clientSecret),
   ("refresh_token", cfg.refreshToken),
   ("grant_type", "refresh_token")]

/-- `fetchAccessToken` from src/src/gmail/client.ts, modelled from the
point the token endpoint's response arrives: a non-ok status produces an
error built from status, status text and response body text; an ok
response whose `access_token` field is absent or falsy (empty) produces a
malformed-response error echoing the stringified JSON; otherwise the token
is returned. -/
def fetchAccessToken (cfg : GmailConfig)
    (response : HttpResponse TokenResponseData) : Except String String :=
  if !response.ok then
    Except.error
      ("Failed to fetch access token: " ++ toString response.status ++ " " ++
        response.statusText ++ "\nResponse: " ++ response.text)
  else
    let data := response.json
    if !(jsTruthy data.access_token) then
      Except.error
        ("Access token not found in response: " ++ stringifyTokenData data)
    else
      Except.ok (data.access_token.getD "")

/-- Message summary returned by `listMessages`: `{ id, threadId }`. -/
structure MessageSummary where
  id : String
  threadId : String
deriving Repr, DecidableEq

/-- One entry of the list endpoint's `messages` array: `{ id, threadId }`. -/
structure ListEntry where
  id : String
  threadId : String
deriving Repr, DecidableEq

/-- The list endpoint's parsed JSON body as typed in `listMessages`:
`{ messages?: Array<{ id, threadId }> }`. -/
structure ListResponseData where
  messages : Option (List ListEntry)
deriving Repr, DecidableEq

/-- The default for the `maxMessages` parameter of `listMessages`. -/
def listMessagesDefaultMax : Int := 10

/-- The query parameters `listMessages` attaches to its request URL, in
insertion order: `maxResults` always (clamped to at most 50), `labelIds`
when `cfg.intakeLabel` is truthy, `q` when `cfg.query` is truthy. -/
def listMessagesSearchParams (cfg : GmailConfig) (maxMessages : Int) :
    List (String × String) :=
  let maxResults := min maxMessages 50
  [("maxResults", toString maxResults)] ++
    (if jsTruthy cfg.intakeLabel then [("labelIds", cfg.intakeLabel.getD "")]
     else []) ++
    (if jsTruthy cfg.query then [("q", cfg.query.getD "")] else [])

/-- Value of a named query parameter in an association list of parameters. -/
def lookupParam (params : List (String × String)) (name : String) :
    Option String :=
  (params.find? (fun p => p.1 == name)).map (fun p => p.2)

/-- `listMessages` from src/src/gmail/client.ts, modelled from the point
the list endpoint's response arrives: a non-ok status produces an error
built from status, status text and body text; an ok response with no
`messages` field yields the empty list; otherwise each entry is mapped to
a `MessageSummary` in order. -/
def listMessages (cfg : GmailConfig) (accessToken : String)
    (maxMessages : Int) (response : HttpResponse ListResponseData) :
    Except String (List MessageSummary) :=
  if !response.ok then
    Except.error
      ("Failed to list messages: " ++ toString response.status ++ " " ++
        response.statusText ++ "\nResponse: " ++ response.text)
  else
    match response.json.messages with
    | none => Except.ok []
    | some msgs =>
        Except.ok (msgs.map (fun msg => { id := msg.id, threadId := msg.threadId }))

/-- The get endpoint's parsed JSON body: the `GmailMessage` shape of
src/unnamed/part_004 (the recursive `payload` field is not modelled; no
property below concerns it). -/
structure GmailMessage where
  id : Option String
  threadId : Option String
  labelIds : Option (List String)
  snippet : Option String
  historyId : Option String
  internalDate : Option String
  sizeEstimate : Option Int
  raw : Option String
deriving Repr, DecidableEq

namespace Client

/-- `getMessage` from src/src/gmail/client.ts (the `format=full` version),
modelled from the point the response arrives: a non-ok status produces an
error built from status, status text and body text; an ok response's
parsed body is returned with no validation at all. -/
def getMessage (cfg : GmailConfig) (accessToken : String) (id : String)
    (response : HttpResponse GmailMessage) : Except String GmailMessage :=
  if !response.ok then
    Except.error
      ("Failed to get message: " ++ toString response.status ++ " " ++
        response.statusText ++ "\nResponse: " ++ response.text)
  else
    Except.ok response.json

end Client

namespace RawClient

/-- `getMessage` from src/unnamed/part_004 (the `format=raw` version):
like the other version on a non-ok status, but an ok response whose `id`
field is absent or falsy is rejected as an invalid message response. -/
def getMessage (cfg : GmailConfig) (accessToken : String) (id : String)
    (response : HttpResponse GmailMessage) : Except String GmailMessage :=
  if !response.ok then
    Except.error
      ("Failed to get message: " ++ toString response.status ++ " " ++
        response.statusText ++ "\nResponse: " ++ response.text)
  else
    let message := response.json
    if !(jsTruthy message.id) then
      Except.error
        "Invalid message response: missing message ID in response from Gmail API"
    else
      Except.ok message

end RawClient

/-- Whether the pattern list is a prefix of the haystack list, by direct
character comparison. -/
def charsStartWith : List Char → List Char → Bool
  | _, [] => true
  | [], _ :: _ => false
  | c :: cs, d :: ds => c == d && charsStartWith cs ds

/-- Whether the pattern list occurs contiguously inside the haystack list. -/
def charsContain : List Char → List Char → Bool
  | [], pat => charsStartWith [] pat
  | c :: cs, pat => charsStartWith (c :: cs) pat || charsContain cs pat

/-- Whether `pat` occurs as a contiguous substring of `hay`. -/
def strContains (hay pat : String) : Bool :=
  charsContain hay.data pat.data

/-- A sample configuration with all required fields set and no optional
field present. -/
def sampleConfig : GmailConfig :=
  { clientId := "id-1", clientSecret := "secret-1",
    refreshToken := "refresh-1", userEmail := "user@example.com",
    intakeLabel := none, processedLabel := none, query := none }

/-- A configuration whose optional filter fields are present but hold the
empty string. -/
def emptyFiltersConfig : GmailConfig :=
  { sampleConfig with intakeLabel := some "", query := some "" }

/-- A configuration with both optional filter fields present and
non-empty. -/
def bothFiltersConfig : GmailConfig :=
  { sampleConfig with
    intakeLabel := some "Label_123",
    query := some "from:important@example.com" }

/-- A configuration that agrees with `sampleConfig` everywhere except the
client secret and the refresh token. -/
def alteredSecretsConfig : GmailConfig :=
  { sampleConfig with
    clientSecret := "secret-2",
    refreshToken := "refresh-2" }

/-- A successful token-endpoint response carrying the access token "T". -/
def tokenOkResponse : HttpResponse TokenResponseData :=
  { ok := true, status := 200, statusText := "OK", text := "",
    json := { access_token := some "T", error := none } }

/-- A failed token-endpoint response (HTTP 400) whose body echoes an OAuth2
error object. -/
def tokenErrResponse : HttpResponse TokenResponseData :=
  { ok := false, status := 400, statusText := "Bad Request",
    text := "\x7b\"error\":\"invalid_grant\"\x7d",
    json := { access_token := none, error := some "invalid_grant" } }

/-- The two message entries carried by `listOkResponse`. -/
def listOkEntries : List ListEntry :=
  [{ id := "m1", threadId := "t1" }, { id := "m2", threadId := "t2" }]

/-- A successful list-endpoint response carrying two message entries. -/
def listOkResponse : HttpResponse ListResponseData :=
  { ok := true, status := 200, statusText := "OK", text := "",
    json := { messages := some listOkEntries } }

/-- A failed list-endpoint response (HTTP 403). -/
def listErrResponse : HttpResponse ListResponseData :=
  { ok := false, status := 403, statusText := "Forbidden",
    text := "insufficient permissions", json := { messages := none } }

/-- A message value with every optional field absent. -/
def emptyMessage : GmailMessage :=
  { id := none, threadId := none, labelIds := none, snippet := none,
    historyId := none, internalDate := none, sizeEstimate := none,
    raw := none }

/-- A failed get-endpoint response (HTTP 404). -/
def getErrResponse : HttpResponse GmailMessage :=
  { ok := false, status := 404, statusText := "Not Found",
    text := "message not found", json := emptyMessage }

/-- A successful (HTTP 200) get-endpoint response whose JSON body carries a
thread id but no message id. -/
def noIdResponse : HttpResponse GmailMessage :=
  { ok := true, status := 200, statusText := "OK",
    text := "\x7b\"threadId\":\"t1\"\x7d",
    json := { emptyMessage with threadId := some "t1" } }

/-- An environment whose client secret is unset and whose refresh token is
whitespace-only, with the other required variables present. -/
def missingEnv : ProcessEnv :=
  { GOOGLE_CLIENT_ID := some "cid", GOOGLE_CLIENT_SECRET := none,
    GOOGLE_REFRESH_TOKEN := some "   ", GMAIL_USER_EMAIL := some "u@x",
    GMAIL_LABEL_INTAKE := none, GMAIL_LABEL_PROCESSED := none,
    GMAIL_QUERY := none }

/-- An environment whose required variables all carry values with leading
and trailing whitespace. -/
def whitespaceEnv : ProcessEnv :=
  { GOOGLE_CLIENT_ID := some " x ", GOOGLE_CLIENT_SECRET := some " y ",
    GOOGLE_REFRESH_TOKEN := some " z ",
    GMAIL_USER_EMAIL := some " u@example.com ",
    GMAIL_LABEL_INTAKE := none, GMAIL_LABEL_PROCESSED := none,
    GMAIL_QUERY := some "is:unread" }

theorem charsStartWith_append (b c : List Char) :
    charsStartWith (b ++ c) b = true := by
  induction b with
  | nil => cases c <;> rfl
  | cons x xs ih => simp [charsStartWith, ih]

theorem charsStartWith_nil (pat : List Char)
    (h : charsStartWith [] pat = true) : pat = [] := by
  cases pat with
  | nil => rfl
  | cons y ys => simp [charsStartWith] at h

theorem charsContain_nil_pat (hay : List Char) : charsContain hay [] = true := by
  cases hay <;> simp [charsContain, charsStartWith]

theorem charsStartWith_append_right (hay ext pat : List Char)
    (h : charsStartWith hay pat = true) :
    charsStartWith (hay ++ ext) pat = true := by
  induction hay generalizing pat with
  | nil =>
    have hp := charsStartWith_nil pat h
    subst hp
    cases ext <;> rfl
  | cons x xs ih =>
    cases pat with
    | nil => rfl
    | cons y ys =>
      simp [charsStartWith] at h ⊢
      exact ⟨h.1, ih ys h.2⟩

theorem charsContain_of_startsWith (hay pat : List Char)
    (h : charsStartWith hay pat = true) : charsContain hay pat = true := by
  cases hay with
  | nil => simpa [charsContain] using h
  | cons x xs => simp [charsContain, h]

theorem charsContain_append_right (hay ext pat : List Char)
    (h : charsContain hay pat = true) : charsContain (hay ++ ext) pat = true := by
  induction hay with
  | nil =>
    have hp := charsStartWith_nil pat (by simpa [charsContain] using h)
    subst hp
    exact charsContain_nil_pat ext
  | cons x xs ih =>
    rw [List.cons_append]
    simp only [charsContain, Bool.or_eq_true] at h ⊢
    rcases h with h | h
    · exact Or.inl (by
        have := charsStartWith_append_right (x :: xs) ext pat h
        simpa using this)
    · exact Or.inr (ih h)

theorem charsContain_append_left (pre hay pat : List Char)
    (h : charsContain hay pat = true) : charsContain (pre ++ hay) pat = true := by
  induction pre with
  | nil => simpa using h
  | cons x xs ih =>
    rw [List.cons_append]
    simp only [charsContain, Bool.or_eq_true]
    exact Or.inr ih

theorem strContains_self (s : String) : strContains s s = true := by
  apply charsContain_of_startsWith
  have := charsStartWith_append s.data []
  simpa using this

theorem strContains_append_right (a b p : String)
    (h : strContains a p = true) : strContains (a ++ b) p = true := by
  simp only [strContains, String.data_append] at h ⊢
  exact charsContain_append_right _ _ _ h

theorem strContains_append_left (a b p : String)
    (h : strContains b p = true) : strContains (a ++ b) p = true := by
  simp only [strContains, String.data_append] at h ⊢
  exact charsContain_append_left _ _ _ h

/-- C5: for every caller-supplied limit, `listMessages` attaches a
`maxResults` parameter equal to `min(limit, 50)`; a limit of 100 is reduced
to 50 (never rejected), and the default limit produces the value 10. -/
theorem listMessages_maxResults_param (cfg : GmailConfig) (maxMessages : Int) :
    lookupParam (listMessagesSearchParams cfg maxMessages) "maxResults"
      = some (toString (min maxMessages 50)) ∧
    lookupParam (listMessagesSearchParams cfg 100) "maxResults" = some "50" ∧
    lookupParam (listMessagesSearchParams cfg listMessagesDefaultMax) "maxResults"
      = some "10" := by
  refine ⟨?_, ?_, ?_⟩ <;>
    simp [lookupParam, listMessagesSearchParams, List.find?,
      listMessagesDefaultMax] <;>
    decide

/-- C9: `listMessages` enforces no lower bound on the limit — every limit
that is at most 50, including zero and negative values, is attached
verbatim as the `maxResults` parameter. -/
theorem listMessages_limit_no_lower_bound (cfg : GmailConfig) (m : Int)
    (h : m ≤ 50) :
    lookupParam (listMessagesSearchParams cfg m) "maxResults"
      = some (toString m) := by
  have hm : min m 50 = m := min_eq_left h
  simp [lookupParam, listMessagesSearchParams, List.find?, hm]

/-- C9 witness: a limit of -5 is attached verbatim as `maxResults=-5`. -/
theorem listMessages_limit_no_lower_bound_witness :
    lookupParam (listMessagesSearchParams sampleConfig (-5)) "maxResults"
      = some "-5" := by
  have h := listMessages_limit_no_lower_bound sampleConfig (-5) (by decide)
  simpa using h

theorem listMessagesSearchParams_labelIds (cfg : GmailConfig) (m : Int) :
    lookupParam (listMessagesSearchParams cfg m) "labelIds"
      = (if jsTruthy cfg.intakeLabel then some (cfg.intakeLabel.getD "")
         else none) := by
  unfold listMessagesSearchParams lookupParam
  cases hil : jsTruthy cfg.intakeLabel <;> cases hq : jsTruthy cfg.query <;>
    simp [List.find?, hil, hq]

theorem listMessagesSearchParams_q (cfg : GmailConfig) (m : Int) :
    lookupParam (listMessagesSearchParams cfg m) "q"
      = (if jsTruthy cfg.query then some (cfg.query.getD "") else none) := by
  unfold listMessagesSearchParams lookupParam
  cases hil : jsTruthy cfg.intakeLabel <;> cases hq : jsTruthy cfg.query <;>
    simp [List.find?, hil, hq]

/-- C6 counterexample: a configuration whose filter fields are present but
hold the empty string issues a request with neither filter parameter, so
"attached if and only if the field is present" fails as stated. -/
theorem listMessages_filter_iff_present_counterexample :
    emptyFiltersConfig.intakeLabel.isSome = true ∧
    emptyFiltersConfig.query.isSome = true ∧
    lookupParam (listMessagesSearchParams emptyFiltersConfig 10) "labelIds"
      = none ∧
    lookupParam (listMessagesSearchParams emptyFiltersConfig 10) "q"
      = none := by
  decide

/-- C6 (amended): `listMessages` attaches the `labelIds` parameter exactly
when `cfg.intakeLabel` is present with a non-empty value, and the `q`
parameter exactly when `cfg.query` is present with a non-empty value; each
attached value is the field's value unchanged, and both parameters can be
attached simultaneously. -/
theorem listMessages_filter_params (cfg : GmailConfig) (m : Int) :
    (∀ v, lookupParam (listMessagesSearchParams cfg m) "labelIds" = some v ↔
       (cfg.intakeLabel = some v ∧ v ≠ "")) ∧
    (∀ v, lookupParam (listMessagesSearchParams cfg m) "q" = some v ↔
       (cfg.query = some v ∧ v ≠ "")) := by
  constructor <;> intro v
  · rw [listMessagesSearchParams_labelIds]
    rcases hil : cfg.intakeLabel with _ | s
    · simp [jsTruthy]
    · by_cases hs : s = ""
      · subst hs
        simp [jsTruthy]
        exact fun h => h.symm
      · simp [jsTruthy, hs]
        rintro rfl
        exact hs
  · rw [listMessagesSearchParams_q]
    rcases hq : cfg.query with _ | s
    · simp [jsTruthy]
    · by_cases hs : s = ""
      · subst hs
        simp [jsTruthy]
        exact fun h => h.symm
      · simp [jsTruthy, hs]
        rintro rfl
        exact hs

/-- C6 witness: with both filter fields set and non-empty, both parameters
are attached with the fields' values unchanged. -/
theorem listMessages_filter_params_witness :
    lookupParam (listMessagesSearchParams bothFiltersConfig 10) "labelIds"
      = some "Label_123" ∧
    lookupParam (listMessagesSearchParams bothFiltersConfig 10) "q"
      = some "from:important@example.com" := by
  constructor
  · exact ((listMessages_filter_params bothFiltersConfig 10).1
      "Label_123").mpr ⟨rfl, by decide⟩
  · exact ((listMessages_filter_params bothFiltersConfig 10).2
      "from:important@example.com").mpr ⟨rfl, by decide⟩

theorem strContains_concat_parts (a s sp st b t : String) :
    strContains (a ++ s ++ sp ++ st ++ b ++ t) s = true ∧
    strContains (a ++ s ++ sp ++ st ++ b ++ t) st = true ∧
    strContains (a ++ s ++ sp ++ st ++ b ++ t) t = true := by
  refine ⟨?_, ?_, ?_⟩
  · exact strContains_append_right _ _ _ (strContains_append_right _ _ _
      (strContains_append_right _ _ _ (strContains_append_right _ _ _
        (strContains_append_left a s s (strContains_self s)))))
  · exact strContains_append_right _ _ _ (strContains_append_right _ _ _
      (strContains_append_left _ _ _ (strContains_self st)))
  · exact strContains_append_left _ _ _ (strContains_self t)

/-- C2: `fetchAccessToken` fails exactly when the HTTP status is non-ok or
the parsed body's `access_token` field is absent or the empty string; in
every other case it returns exactly the token string from the response. -/
theorem fetchAccessToken_result_iff (cfg : GmailConfig)
    (r : HttpResponse TokenResponseData) :
    ((∃ e, fetchAccessToken cfg r = Except.error e) ↔
      (r.ok = false ∨ r.json.access_token = none ∨
        r.json.access_token = some "")) ∧
    (∀ t, fetchAccessToken cfg r = Except.ok t ↔
      (r.ok = true ∧ r.json.access_token = some t ∧ t ≠ "")) := by
  obtain ⟨ok, status, st, txt, tk, err⟩ := r
  cases ok
  · simp [fetchAccessToken]
  · cases tk with
    | none => simp [fetchAccessToken, jsTruthy]
    | some s =>
      by_cases hs : s = "" <;>
        simp [fetchAccessToken, jsTruthy, hs]

/-- C2 witness: a success response carrying access token "T" makes
`fetchAccessToken` return exactly "T". -/
theorem fetchAccessToken_result_iff_witness :
    fetchAccessToken sampleConfig tokenOkResponse = Except.ok "T" :=
  ((fetchAccessToken_result_iff sampleConfig tokenOkResponse).2 "T").mpr
    ⟨rfl, rfl, by decide⟩

/-- C4: the result of `fetchAccessToken` — in particular any error message
it produces — depends only on the HTTP response, not on the configured
client secret or refresh token: two configurations that agree on every
field except `clientSecret` and `refreshToken` produce identical results
for the same response. -/
theorem fetchAccessToken_secret_noninterference (c1 c2 : GmailConfig)
    (r : HttpResponse TokenResponseData)
    (hid : c1.clientId = c2.clientId)
    (hem : c1.userEmail = c2.userEmail)
    (hil : c1.intakeLabel = c2.intakeLabel)
    (hpl : c1.processedLabel = c2.processedLabel)
    (hq : c1.query = c2.query) :
    fetchAccessToken c1 r = fetchAccessToken c2 r := rfl

/-- C4 witness: two configurations differing exactly in the client secret
and refresh token produce the same error for the same 400 response. -/
theorem fetchAccessToken_secret_noninterference_witness :
    sampleConfig.clientSecret ≠ alteredSecretsConfig.clientSecret ∧
    sampleConfig.refreshToken ≠ alteredSecretsConfig.refreshToken ∧
    fetchAccessToken sampleConfig tokenErrResponse
      = fetchAccessToken alteredSecretsConfig tokenErrResponse :=
  ⟨by decide, by decide,
    fetchAccessToken_secret_noninterference sampleConfig alteredSecretsConfig
      tokenErrResponse rfl rfl rfl rfl rfl⟩

/-- C7: on a successful response, a missing `messages` field yields the
empty list (a success, not an error), and otherwise the result has one
summary per remote entry, carrying that entry's id and thread id, in the
remote order. -/
theorem listMessages_success_mapping (cfg : GmailConfig) (tok : String)
    (m : Int) (r : HttpResponse ListResponseData) (h : r.ok = true) :
    ∃ out, listMessages cfg tok m r = Except.ok out ∧
      (r.json.messages = none → out = []) ∧
      (∀ l, r.json.messages = some l →
        out.map MessageSummary.id = l.map ListEntry.id ∧
        out.map MessageSummary.threadId = l.map ListEntry.threadId) := by
  cases hm : r.json.messages with
  | none =>
    refine ⟨[], ?_, ?_, ?_⟩
    · simp [listMessages, h, hm]
    · intro
      rfl
    · intro l hl
      cases hl
  | some l =>
    refine ⟨l.map (fun msg => ⟨msg.id, msg.threadId⟩), ?_, ?_, ?_⟩
    · simp [listMessages, h, hm]
    · intro hnone
      cases hnone
    · intro l2 hl2
      injection hl2 with e
      subst e
      constructor <;> simp [List.map_map, Function.comp]

/-- C7 witness: a success response carrying two entries produces exactly
their ids and thread ids in order. -/
theorem listMessages_success_mapping_witness :
    ∃ out, listMessages sampleConfig "tok" 10 listOkResponse
        = Except.ok out ∧
      (listOkResponse.json.messages = none → out = []) ∧
      (∀ l, listOkResponse.json.messages = some l →
        out.map MessageSummary.id = l.map ListEntry.id ∧
        out.map MessageSummary.threadId = l.map ListEntry.threadId) :=
  listMessages_success_mapping sampleConfig "tok" 10 listOkResponse rfl

/-- C8: every non-success HTTP status makes `listMessages` and both
versions of `getMessage` fail with an error whose message carries the
numeric status code, the status description, and the response body text. -/
theorem apiError_message_fields (cfg : GmailConfig) (tok mid : String)
    (m : Int) (rl : HttpResponse ListResponseData)
    (rg : HttpResponse GmailMessage)
    (hl : rl.ok = false) (hg : rg.ok = false) :
    (∃ e, listMessages cfg tok m rl = Except.error e ∧
      strContains e (toString rl.status) = true ∧
      strContains e rl.statusText = true ∧
      strContains e rl.text = true) ∧
    (∃ e, Client.getMessage cfg tok mid rg = Except.error e ∧
      strContains e (toString rg.status) = true ∧
      strContains e rg.statusText = true ∧
      strContains e rg.text = true) ∧
    (∃ e, RawClient.getMessage cfg tok mid rg = Except.error e ∧
      strContains e (toString rg.status) = true ∧
      strContains e rg.statusText = true ∧
      strContains e rg.text = true) := by
  have p1 := strContains_concat_parts "Failed to list messages: "
    (toString rl.status) " " rl.statusText "\nResponse: " rl.text
  have p2 := strContains_concat_parts "Failed to get message: "
    (toString rg.status) " " rg.statusText "\nResponse: " rg.text
  refine ⟨⟨_, ?_, p1.1, p1.2.1, p1.2.2⟩, ⟨_, ?_, p2.1, p2.2.1, p2.2.2⟩,
    ⟨_, ?_, p2.1, p2.2.1, p2.2.2⟩⟩
  · simp [listMessages, hl]
  · simp [Client.getMessage, hg]
  · simp [RawClient.getMessage, hg]

/-- C8 witness: concrete 403 and 404 responses produce errors carrying the
status code, status text and body for list and for both get versions. -/
theorem apiError_message_fields_witness :
    (∃ e, listMessages sampleConfig "tok" 10 listErrResponse
        = Except.error e ∧
      strContains e (toString listErrResponse.status) = true ∧
      strContains e listErrResponse.statusText = true ∧
      strContains e listErrResponse.text = true) ∧
    (∃ e, Client.getMessage sampleConfig "tok" "m1" getErrResponse
        = Except.error e ∧
      strContains e (toString getErrResponse.status) = true ∧
      strContains e getErrResponse.statusText = true ∧
      strContains e getErrResponse.text = true) ∧
    (∃ e, RawClient.getMessage sampleConfig "tok" "m1" getErrResponse
        = Except.error e ∧
      strContains e (toString getErrResponse.status) = true ∧
      strContains e getErrResponse.statusText = true ∧
      strContains e getErrResponse.text = true) :=
  apiError_message_fields sampleConfig "tok" "m1" 10 listErrResponse
    getErrResponse rfl rfl

/-- C3, evaluated at the failing input: on a 200 response whose body has a
thread id but no message id, the `getMessage` of src/src/gmail/client.ts
returns the unvalidated payload instead of failing, while the `getMessage`
of src/unnamed/part_004 — the behavior its own unit tests and the spec
require — rejects the response. -/
theorem getMessage_missing_id_divergence :
    Client.getMessage sampleConfig "tok" "m1" noIdResponse
      = Except.ok noIdResponse.json ∧
    RawClient.getMessage sampleConfig "tok" "m1" noIdResponse
      = Except.error
        "Invalid message response: missing message ID in response from Gmail API" := by
  constructor <;> rfl

/-- C10: validation trims only for the blankness check; when every required
variable is non-blank after trimming, the returned configuration carries
the original untrimmed values, and optional fields pass through verbatim. -/
theorem loadGmailConfig_keeps_raw_values (env : ProcessEnv)
    (cid cs rt ue : String)
    (h1 : env.GOOGLE_CLIENT_ID = some cid) (n1 : jsTrim cid ≠ "")
    (h2 : env.GOOGLE_CLIENT_SECRET = some cs) (n2 : jsTrim cs ≠ "")
    (h3 : env.GOOGLE_REFRESH_TOKEN = some rt) (n3 : jsTrim rt ≠ "")
    (h4 : env.GMAIL_USER_EMAIL = some ue) (n4 : jsTrim ue ≠ "") :
    loadGmailConfig env = Except.ok
      { clientId := cid, clientSecret := cs, refreshToken := rt,
        userEmail := ue, intakeLabel := env.GMAIL_LABEL_INTAKE,
        processedLabel := env.GMAIL_LABEL_PROCESSED,
        query := env.GMAIL_QUERY } := by
  have e1 : cid ≠ "" := fun hc => n1 (by rw [hc]; rfl)
  have e2 : cs ≠ "" := fun hc => n2 (by rw [hc]; rfl)
  have e3 : rt ≠ "" := fun hc => n3 (by rw [hc]; rfl)
  have e4 : ue ≠ "" := fun hc => n4 (by rw [hc]; rfl)
  have b1 : isBlank (some cid) = false := by simp [isBlank, e1, n1]
  have b2 : isBlank (some cs) = false := by simp [isBlank, e2, n2]
  have b3 : isBlank (some rt) = false := by simp [isBlank, e3, n3]
  have b4 : isBlank (some ue) = false := by simp [isBlank, e4, n4]
  simp [loadGmailConfig, missingVars, requiredVars, h1, h2, h3, h4,
    b1, b2, b3, b4]

/-- C10 witness: values like " x " pass validation and are returned with
their whitespace intact. -/
theorem loadGmailConfig_keeps_raw_values_witness :
    loadGmailConfig whitespaceEnv = Except.ok
      { clientId := " x ", clientSecret := " y ", refreshToken := " z ",
        userEmail := " u@example.com ", intakeLabel := none,
        processedLabel := none, query := some "is:unread" } :=
  loadGmailConfig_keeps_raw_values whitespaceEnv " x " " y " " z "
    " u@example.com " rfl (by decide) rfl (by decide) rfl (by decide)
    rfl (by decide)

/-- C1: when no required variable is blank, `loadGmailConfig` succeeds;
when some are blank (missing, empty, or whitespace-only), it fails with a
message that contains exactly the blank variables' names and none of the
present ones. -/
theorem loadGmailConfig_missing_exact (env : ProcessEnv) :
    (missingVars env = [] → ∃ cfg, loadGmailConfig env = Except.ok cfg) ∧
    (missingVars env ≠ [] →
      ∃ msg, loadGmailConfig env = Except.error msg ∧
        ∀ n ∈ requiredNames,
          (strContains msg n = true ↔ n ∈ missingVars env)) := by
  constructor
  · intro h0
    refine ⟨{ clientId := env.GOOGLE_CLIENT_ID.getD "",
              clientSecret := env.GOOGLE_CLIENT_SECRET.getD "",
              refreshToken := env.GOOGLE_REFRESH_TOKEN.getD "",
              userEmail := env.GMAIL_USER_EMAIL.getD "",
              intakeLabel := env.GMAIL_LABEL_INTAKE,
              processedLabel := env.GMAIL_LABEL_PROCESSED,
              query := env.GMAIL_QUERY }, ?_⟩
    simp only [loadGmailConfig, h0, List.length_nil]
    rfl
  · intro hne
    have hlen : (missingVars env).length > 0 := by
      cases hmv : missingVars env with
      | nil => exact absurd hmv hne
      | cons a l => simp
    refine ⟨"Missing required environment variables: " ++
      String.intercalate ", " (missingVars env), ?_, ?_⟩
    · simp [loadGmailConfig, hlen]
    · cases h1 : isBlank env.GOOGLE_CLIENT_ID <;>
      cases h2 : isBlank env.GOOGLE_CLIENT_SECRET <;>
      cases h3 : isBlank env.GOOGLE_REFRESH_TOKEN <;>
      cases h4 : isBlank env.GMAIL_USER_EMAIL <;>
      (simp [missingVars, requiredVars, List.filter_cons,
        List.filter_nil, h1, h2, h3, h4]
       decide)

/-- C1 witness: with the client secret unset and the refresh token
whitespace-only, the error message names exactly those two variables. -/
theorem loadGmailConfig_missing_exact_witness :
    ∃ msg, loadGmailConfig missingEnv = Except.error msg ∧
      ∀ n ∈ requiredNames,
        (strContains msg n = true ↔ n ∈ missingVars missingEnv) :=
  (loadGmailConfig_missing_exact missingEnv).2 (by decide)

end Gmail
